import Mathlib

/-!
Verification of the musical-brain generic graph-entity CRUD layer.

The development shallowly embeds the two source modules that carry the
logic under scrutiny:

* musical_brain/services.py — create_node, get_node, update_node,
  delete_node, list_nodes, count_nodes, initialize_schema;
* musical_brain/database.py — DatabaseManager.run_query.

Python dictionaries are embedded as insertion-ordered association lists
with Python assignment semantics (assigning to an existing key replaces
the value in place, assigning to a fresh key appends at the end).
Instants are abstracted as naturals; the stdlib isoformat serialization
is abstracted as an injective rendering to text.  The query-execution
capability (the Neo4j driver session) is a function parameter from query
text and bound parameters to either an error or a list of records, so
every theorem quantifies over the behavior of the database.  Each
operation also reports the list of issued (query text, parameters)
pairs, making the dynamic query construction itself observable.
-/

namespace MusicalBrain

/-- Property values stored on a node: strings, integers, booleans, and
datetime objects (instants abstracted as naturals). -/
inductive Value where
  | str : String → Value
  | int : Int → Value
  | bool : Bool → Value
  | dt : Nat → Value
  deriving DecidableEq, Repr

/-- Models datetime.isoformat from the Python stdlib: an injective
rendering of an (abstracted) instant to text. -/
def isoformat (t : Nat) : String :=
  "1970-01-01T00:00:00+" ++ toString t

/-- True exactly on datetime values; mirrors isinstance(value, datetime). -/
def Value.isDt : Value → Bool
  | .dt _ => true
  | _ => false

/-- A Python dict with string keys, as an insertion-ordered association
list.  Real dicts never hold a duplicate key; theorems that need that
fact take a Nodup hypothesis on the key list. -/
abbrev PyDict := List (String × Value)

/-- The keys of a dict, in insertion order. -/
def dictKeys (d : PyDict) : List String := d.map (fun p => p.1)

/-- Dict lookup, d[k] as an Option. -/
def lookupD : PyDict → String → Option Value
  | [], _ => none
  | p :: rest, k => if p.1 = k then some p.2 else lookupD rest k

/-- Replace the value at every occurrence of key k, keeping positions. -/
def replaceKey : PyDict → String → Value → PyDict
  | [], _, _ => []
  | p :: rest, k, v => if p.1 = k then (k, v) :: replaceKey rest k v else p :: replaceKey rest k v

/-- Python assignment d[k] = v: replace in place when the key exists,
append at the end otherwise. -/
def setKey (d : PyDict) (k : String) (v : Value) : PyDict :=
  if k ∈ dictKeys d then replaceKey d k v else d ++ [(k, v)]

/-- The dict-literal merge of base with a trailing double-star data
splat: every data entry is assigned, in order, over base. -/
def mergeDict (base data : PyDict) : PyDict :=
  data.foldl (fun acc p => setKey acc p.1 p.2) base

/-- Serialization applied to one value: datetime objects become their
isoformat text, everything else is unchanged. -/
def serializeValue : Value → Value
  | .dt t => .str (isoformat t)
  | v => v

/-- The loop converting datetime values to ISO strings, over all entries. -/
def serializeDatetimes (d : PyDict) : PyDict :=
  d.map (fun p => (p.1, serializeValue p.2))

/-- True when no value in the dict is a datetime object. -/
def noDatetimes (d : PyDict) : Bool :=
  d.all (fun p => ! p.2.isDt)

section DictLemmas

theorem dictKeys_cons (p : String × Value) (d : PyDict) :
    dictKeys (p :: d) = p.1 :: dictKeys d := rfl

theorem dictKeys_append (d e : PyDict) :
    dictKeys (d ++ e) = dictKeys d ++ dictKeys e := by
  simp [dictKeys]

theorem lookupD_eq_none_iff (d : PyDict) (k : String) :
    lookupD d k = none ↔ k ∉ dictKeys d := by
  induction d with
  | nil => simp [lookupD, dictKeys]
  | cons p rest ih =>
    by_cases h : p.1 = k
    · simp [lookupD, h, dictKeys_cons]
    · simp only [lookupD, if_neg h, dictKeys_cons, List.mem_cons, ih]
      constructor
      · intro hn hor
        rcases hor with hor | hor
        · exact h hor.symm
        · exact hn hor
      · intro hn hm
        exact hn (Or.inr hm)

theorem lookupD_replaceKey_self (d : PyDict) (k : String) (v : Value)
    (h : k ∈ dictKeys d) : lookupD (replaceKey d k v) k = some v := by
  induction d with
  | nil => simp [dictKeys] at h
  | cons p rest ih =>
    by_cases hp : p.1 = k
    · simp [replaceKey, hp, lookupD]
    · have hmem : k ∈ dictKeys rest := by
        rw [dictKeys_cons, List.mem_cons] at h
        rcases h with h | h
        · exact absurd h.symm hp
        · exact h
      simp only [replaceKey, if_neg hp, lookupD]
      exact ih hmem

theorem lookupD_replaceKey_ne (d : PyDict) (k k' : String) (v : Value)
    (h : k' ≠ k) : lookupD (replaceKey d k v) k' = lookupD d k' := by
  induction d with
  | nil => simp [replaceKey]
  | cons p rest ih =>
    by_cases hp : p.1 = k
    · have hpk : p.1 ≠ k' := by
        rw [hp]
        exact fun hh => h hh.symm
      simp only [replaceKey, if_pos hp, lookupD]
      rw [if_neg (fun hh : k = k' => h hh.symm), if_neg hpk, ih]
    · simp only [replaceKey, if_neg hp, lookupD]
      by_cases hpk : p.1 = k'
      · rw [if_pos hpk, if_pos hpk]
      · rw [if_neg hpk, if_neg hpk, ih]

theorem lookupD_append_right (d : PyDict) (k : String) (v : Value)
    (h : k ∉ dictKeys d) : lookupD (d ++ [(k, v)]) k = some v := by
  induction d with
  | nil => simp [lookupD]
  | cons p rest ih =>
    rw [dictKeys_cons, List.mem_cons, not_or] at h
    have hne : p.1 ≠ k := fun hp => h.1 hp.symm
    simp only [List.cons_append, lookupD]
    rw [if_neg hne]
    exact ih h.2

theorem lookupD_append_ne (d : PyDict) (k k' : String) (v : Value)
    (h : k' ≠ k) : lookupD (d ++ [(k, v)]) k' = lookupD d k' := by
  induction d with
  | nil =>
    simp only [List.nil_append, lookupD]
    rw [if_neg (fun hh : k = k' => h hh.symm)]
  | cons p rest ih =>
    simp only [List.cons_append, lookupD]
    by_cases hp : p.1 = k'
    · rw [if_pos hp, if_pos hp]
    · rw [if_neg hp, if_neg hp]
      exact ih

theorem lookupD_setKey_self (d : PyDict) (k : String) (v : Value) :
    lookupD (setKey d k v) k = some v := by
  unfold setKey
  by_cases h : k ∈ dictKeys d
  · rw [if_pos h]
    exact lookupD_replaceKey_self d k v h
  · rw [if_neg h]
    exact lookupD_append_right d k v h

theorem lookupD_setKey_ne (d : PyDict) (k k' : String) (v : Value)
    (h : k' ≠ k) : lookupD (setKey d k v) k' = lookupD d k' := by
  unfold setKey
  by_cases hm : k ∈ dictKeys d
  · rw [if_pos hm]
    exact lookupD_replaceKey_ne d k k' v h
  · rw [if_neg hm]
    exact lookupD_append_ne d k k' v h

theorem dictKeys_replaceKey (d : PyDict) (k : String) (v : Value) :
    dictKeys (replaceKey d k v) = dictKeys d := by
  induction d with
  | nil => rfl
  | cons p rest ih =>
    by_cases hp : p.1 = k
    · simp only [replaceKey, if_pos hp, dictKeys_cons, ih]
      rw [hp]
    · simp only [replaceKey, if_neg hp, dictKeys_cons, ih]

theorem dictKeys_setKey (d : PyDict) (k : String) (v : Value) :
    dictKeys (setKey d k v) =
      if k ∈ dictKeys d then dictKeys d else dictKeys d ++ [k] := by
  unfold setKey
  by_cases h : k ∈ dictKeys d
  · rw [if_pos h, if_pos h, dictKeys_replaceKey]
  · rw [if_neg h, if_neg h, dictKeys_append]
    rfl

theorem nodup_dictKeys_setKey (d : PyDict) (k : String) (v : Value)
    (h : (dictKeys d).Nodup) : (dictKeys (setKey d k v)).Nodup := by
  rw [dictKeys_setKey]
  by_cases hm : k ∈ dictKeys d
  · rw [if_pos hm]
    exact h
  · rw [if_neg hm, List.nodup_append]
    refine ⟨h, List.nodup_singleton k, ?_⟩
    intro a ha hak
    rw [List.mem_singleton] at hak
    exact hm (hak ▸ ha)

theorem lookupD_serializeDatetimes (d : PyDict) (k : String) :
    lookupD (serializeDatetimes d) k = (lookupD d k).map serializeValue := by
  induction d with
  | nil => simp [serializeDatetimes, lookupD]
  | cons p rest ih =>
    simp only [serializeDatetimes, List.map_cons, lookupD] at ih ⊢
    by_cases hp : p.1 = k
    · rw [if_pos hp, if_pos hp]
      rfl
    · rw [if_neg hp, if_neg hp, ih]

theorem dictKeys_serializeDatetimes (d : PyDict) :
    dictKeys (serializeDatetimes d) = dictKeys d := by
  simp [dictKeys, serializeDatetimes, List.map_map, Function.comp]

theorem serializeDatetimes_of_noDatetimes (d : PyDict)
    (h : noDatetimes d = true) : serializeDatetimes d = d := by
  induction d with
  | nil => rfl
  | cons p rest ih =>
    simp only [noDatetimes, List.all_cons, Bool.and_eq_true] at h
    have hrest : serializeDatetimes rest = rest := ih (by simpa [noDatetimes] using h.2)
    have hv : serializeValue p.2 = p.2 := by
      rcases hpv : p.2 with s | n | b | t
      · rfl
      · rfl
      · rfl
      · exfalso
        have hd := h.1
        rw [hpv] at hd
        simp [Value.isDt] at hd
    simp only [serializeDatetimes, List.map_cons] at hrest ⊢
    rw [hv, hrest]

theorem lookupD_mergeDict_of_none (base data : PyDict) (k : String)
    (h : lookupD data k = none) :
    lookupD (mergeDict base data) k = lookupD base k := by
  induction data generalizing base with
  | nil => simp [mergeDict]
  | cons p rest ih =>
    simp only [lookupD] at h
    by_cases hp : p.1 = k
    · rw [if_pos hp] at h
      exact absurd h (by simp)
    · rw [if_neg hp] at h
      have hstep : mergeDict base (p :: rest) = mergeDict (setKey base p.1 p.2) rest := rfl
      rw [hstep, ih (setKey base p.1 p.2) h, lookupD_setKey_ne base p.1 k p.2 (Ne.symm hp)]

theorem lookupD_mergeDict_of_some (base data : PyDict) (k : String) (v : Value)
    (hnd : (dictKeys data).Nodup) (h : lookupD data k = some v) :
    lookupD (mergeDict base data) k = some v := by
  induction data generalizing base with
  | nil => simp [lookupD] at h
  | cons p rest ih =>
    have hstep : mergeDict base (p :: rest) = mergeDict (setKey base p.1 p.2) rest := rfl
    rw [dictKeys_cons, List.nodup_cons] at hnd
    simp only [lookupD] at h
    by_cases hp : p.1 = k
    · rw [if_pos hp] at h
      have hknotin : k ∉ dictKeys rest := hp ▸ hnd.1
      have hnone : lookupD rest k = none := (lookupD_eq_none_iff rest k).mpr hknotin
      rw [hstep, lookupD_mergeDict_of_none (setKey base p.1 p.2) rest k hnone, ← hp,
        lookupD_setKey_self]
      exact congrArg some (by injection h)
    · rw [if_neg hp] at h
      rw [hstep, ih (setKey base p.1 p.2) hnd.2 h]

end DictLemmas

/-! Embedding of musical_brain/database.py and the record/parameter
shapes exchanged with the Neo4j driver. -/

/-- Errors raised by the embedded Python code. -/
inductive PyError where
  | runtimeError : String → PyError
  | keyError : String → PyError
  | typeError : PyError
  | driverError : String → PyError
  deriving DecidableEq, Repr

/-- One named field of a result record: either a node (its property map)
or a plain integer such as a count. -/
inductive Cell where
  | node : PyDict → Cell
  | int : Int → Cell
  deriving DecidableEq, Repr

/-- A result record, mapping result names to cells. -/
abbrev Record := List (String × Cell)

/-- Record lookup, record[name]; a missing name is a KeyError in Python,
so callers branch on the Option. -/
def recordLookup : Record → String → Option Cell
  | [], _ => none
  | p :: rest, k => if p.1 = k then some p.2 else recordLookup rest k

/-- A bound query parameter: a string, an integer, or a property map. -/
inductive Param where
  | str : String → Param
  | int : Int → Param
  | map : PyDict → Param
  deriving DecidableEq, Repr

/-- The named parameters bound to one query execution. -/
abbrev Params := List (String × Param)

/-- The query-execution capability: the connected Neo4j driver session,
run(query, parameters) returning records or raising. -/
abbrev Driver := String → Params → Except PyError (List Record)

/-- DatabaseManager from database.py: holds an optional driver, None
until connect() succeeds. -/
structure DatabaseManager where
  driver : Option Driver

/-- A freshly constructed DatabaseManager: init sets driver to None. -/
def newDatabaseManager : DatabaseManager := { driver := none }

/-- DatabaseManager.run_query: raises RuntimeError when no driver is
set, otherwise delegates to the driver session (errors from the session
are logged and re-raised unchanged). -/
def DatabaseManager.run_query (db : DatabaseManager) (query : String)
    (parameters : Params) : Except PyError (List Record) :=
  match db.driver with
  | none => .error (.runtimeError "Not connected to database. Call connect() first.")
  | some drv => drv query parameters

/-! Embedding of musical_brain/services.py.  The generated uuid and the
current instant are effect inputs, passed as explicit arguments.  Each
operation returns its Python result (or raised error) together with the
list of (query text, bound parameters) pairs it handed to run_query, so
the dynamic query construction is itself an observable output. -/

/-- Result of one service operation: the returned value or raised
error, plus the issued (query, parameters) pairs in order. -/
structure OpResult (α : Type) where
  result : Except PyError α
  issued : List (String × Params)
  deriving Repr

/-- The f-string query text of create_node. -/
def createQuery (label : String) : String :=
  "\n    CREATE (n:" ++ label ++ " $props)\n    RETURN n\n    "

/-- The f-string query text of get_node. -/
def getQuery (label : String) : String :=
  "\n    MATCH (n:" ++ label ++ " \x7bid: $id\x7d)\n    RETURN n\n    "

/-- The f-string query text of update_node, around the dynamic SET clause. -/
def updateQuery (label clause : String) : String :=
  "\n    MATCH (n:" ++ label ++ " \x7bid: $id\x7d)\n    SET " ++ clause ++ "\n    RETURN n\n    "

/-- The f-string query text of delete_node. -/
def deleteQuery (label : String) : String :=
  "\n    MATCH (n:" ++ label ++ " \x7bid: $id\x7d)\n    DELETE n\n    RETURN count(n) as deleted_count\n    "

/-- The f-string query text of list_nodes. -/
def listQuery (label : String) : String :=
  "\n    MATCH (n:" ++ label ++ ")\n    RETURN n\n    ORDER BY n.created_at DESC\n    SKIP $offset\n    LIMIT $limit\n    "

/-- The f-string query text of count_nodes. -/
def countQuery (label : String) : String :=
  "\n    MATCH (n:" ++ label ++ ")\n    RETURN count(n) as total\n    "

/-- The property map create_node hands to the query layer: the dict
literal with generated id and created_at followed by the data splat,
then updated_at for labels in [Album], then datetime serialization. -/
def createNodeData (label : String) (data : PyDict) (node_id : String)
    (now : Nat) : PyDict :=
  let node_data := mergeDict [("id", Value.str node_id), ("created_at", Value.dt now)] data
  let node_data :=
    if label ∈ (["Album"] : List String) then setKey node_data "updated_at" (Value.dt now)
    else node_data
  serializeDatetimes node_data

/-- Extraction of dict(result[0]["n"]): the node property map of the
first record, a KeyError when the name is absent and a TypeError when
the cell is not a node. -/
def firstNode (rows : List Record) : Except PyError PyDict :=
  match rows with
  | [] => .error (.keyError "empty result")
  | r :: _ =>
    match recordLookup r "n" with
    | some (Cell.node props) => .ok props
    | some _ => .error .typeError
    | none => .error (.keyError "n")

/-- create_node from services.py. -/
def create_node (run : Driver) (label : String) (data : PyDict)
    (node_id : String) (now : Nat) : OpResult PyDict :=
  let node_data := createNodeData label data node_id now
  let query := createQuery label
  let params : Params := [("props", Param.map node_data)]
  { result :=
      match run query params with
      | .error e => .error e
      | .ok [] => .error (.runtimeError ("Failed to create " ++ label ++ " node"))
      | .ok (r :: rest) => firstNode (r :: rest)
    issued := [(query, params)] }

/-- get_node from services.py. -/
def get_node (run : Driver) (label node_id : String) : OpResult (Option PyDict) :=
  let query := getQuery label
  let params : Params := [("id", Param.str node_id)]
  { result :=
      match run query params with
      | .error e => .error e
      | .ok [] => .ok none
      | .ok (r :: rest) =>
        match firstNode (r :: rest) with
        | .ok props => .ok (some props)
        | .error e => .error e
    issued := [(query, params)] }

/-- The augmented update set of update_node: updated_at injected (as
already-serialized text) for labels in [Album], then the datetime
serialization loop. -/
def augmentUpdates (label : String) (updates : PyDict) (now : Nat) : PyDict :=
  let u :=
    if label ∈ (["Album"] : List String) then setKey updates "updated_at" (Value.str (isoformat now))
    else updates
  serializeDatetimes u

/-- The per-key assignment fragments of the dynamic SET clause, one per
key of the update set, in order. -/
def setParts (u : PyDict) : List String :=
  u.map (fun p => "n." ++ p.1 ++ " = $updates." ++ p.1)

/-- The dynamic SET clause: the fragments joined with a comma. -/
def setClause (u : PyDict) : String :=
  String.intercalate ", " (setParts u)

/-- Result of update_node: the operation outcome plus the final state
of the caller-supplied updates dict, which Python mutates in place. -/
structure UpdateOut where
  op : OpResult (Option PyDict)
  finalUpdates : PyDict
  deriving Repr

/-- update_node from services.py. -/
def update_node (run : Driver) (label node_id : String) (updates : PyDict)
    (now : Nat) : UpdateOut :=
  if updates.isEmpty then
    { op := get_node run label node_id, finalUpdates := updates }
  else
    let updated := augmentUpdates label updates now
    let query := updateQuery label (setClause updated)
    let params : Params := [("id", Param.str node_id), ("updates", Param.map updated)]
    { op :=
        { result :=
            match run query params with
            | .error e => .error e
            | .ok [] => .ok none
            | .ok (r :: rest) =>
              match firstNode (r :: rest) with
              | .ok props => .ok (some props)
              | .error e => .error e
          issued := [(query, params)] }
      finalUpdates := updated }

/-- The value of a Python and-expression over a record list and a
boolean: the empty list itself (falsy) or the boolean. -/
inductive BoolLike where
  | emptyList : BoolLike
  | bool : Bool → BoolLike
  deriving DecidableEq, Repr

/-- Python truthiness of the and-expression value. -/
def BoolLike.truthy : BoolLike → Bool
  | .emptyList => false
  | .bool b => b

/-- delete_node from services.py; the returned value is the Python
expression result and result[0][deleted_count] gt 0. -/
def delete_node (run : Driver) (label node_id : String) : OpResult BoolLike :=
  let query := deleteQuery label
  let params : Params := [("id", Param.str node_id)]
  { result :=
      match run query params with
      | .error e => .error e
      | .ok [] => .ok .emptyList
      | .ok (r :: _) =>
        match recordLookup r "deleted_count" with
        | some (Cell.int n) => .ok (.bool (decide (0 < n)))
        | some _ => .error .typeError
        | none => .error (.keyError "deleted_count")
    issued := [(query, params)] }

/-- Extraction of the list comprehension over records in list_nodes. -/
def extractNodes : List Record → Except PyError (List PyDict)
  | [] => .ok []
  | r :: rest =>
    match recordLookup r "n" with
    | some (Cell.node props) =>
      match extractNodes rest with
      | .ok tl => .ok (props :: tl)
      | .error e => .error e
    | some _ => .error .typeError
    | none => .error (.keyError "n")

/-- list_nodes from services.py. -/
def list_nodes (run : Driver) (label : String) (limit offset : Int) :
    OpResult (List PyDict) :=
  let query := listQuery label
  let params : Params := [("limit", Param.int limit), ("offset", Param.int offset)]
  { result :=
      match run query params with
      | .error e => .error e
      | .ok rows => extractNodes rows
    issued := [(query, params)] }

/-- count_nodes from services.py: result[0][total] when the result is
non-empty, the integer 0 otherwise; no parameters are bound. -/
def count_nodes (run : Driver) (label : String) : OpResult Cell :=
  let query := countQuery label
  { result :=
      match run query [] with
      | .error e => .error e
      | .ok [] => .ok (Cell.int 0)
      | .ok (r :: _) =>
        match recordLookup r "total" with
        | some c => .ok c
        | none => .error (.keyError "total")
    issued := [(query, [])] }

/-- The fixed ordered statement list of initialize_schema. -/
def constraintsAndIndexes : List String :=
  [ "CREATE CONSTRAINT album_id_unique IF NOT EXISTS FOR (a:Album) REQUIRE a.id IS UNIQUE",
    "CREATE CONSTRAINT artist_id_unique IF NOT EXISTS FOR (a:Artist) REQUIRE a.id IS UNIQUE",
    "CREATE CONSTRAINT genre_id_unique IF NOT EXISTS FOR (g:Genre) REQUIRE g.id IS UNIQUE",
    "CREATE INDEX album_title_index IF NOT EXISTS FOR (a:Album) ON (a.title)",
    "CREATE INDEX artist_name_index IF NOT EXISTS FOR (a:Artist) ON (a.name)",
    "CREATE INDEX genre_name_index IF NOT EXISTS FOR (g:Genre) ON (g.name)",
    "CREATE INDEX album_created_at_index IF NOT EXISTS FOR (a:Album) ON (a.created_at)" ]

/-- The loop body of initialize_schema: one statement run inside
try/except, every failure caught and logged. -/
def runSchemaStatement (run : Driver) (s : String) : Except PyError Unit :=
  match run s [] with
  | .ok _ => .ok ()
  | .error _ => .ok ()

/-- The sequential loop of initialize_schema over the remaining
statements, accumulating the statements attempted so far. -/
def initSchemaLoop (run : Driver) (attempted : List String) :
    List String → Except PyError (List String)
  | [] => .ok attempted
  | s :: rest =>
    (runSchemaStatement run s).bind (fun _ => initSchemaLoop run (attempted ++ [s]) rest)

/-- initialize_schema from services.py: the statements run sequentially
through the guarded loop body; the returned list records the statements
attempted, in order. -/
def initialize_schema (run : Driver) : Except PyError (List String) :=
  initSchemaLoop run [] constraintsAndIndexes

/-! Shared characterization lemmas about the operations. -/

theorem createNodeData_eq (label : String) (data : PyDict) (node_id : String) (now : Nat) :
    createNodeData label data node_id now =
      serializeDatetimes
        (if label ∈ (["Album"] : List String) then
          setKey (mergeDict [("id", Value.str node_id), ("created_at", Value.dt now)] data)
            "updated_at" (Value.dt now)
        else mergeDict [("id", Value.str node_id), ("created_at", Value.dt now)] data) := by
  by_cases h : label ∈ (["Album"] : List String) <;> simp [createNodeData, h]

theorem augmentUpdates_eq (label : String) (updates : PyDict) (now : Nat) :
    augmentUpdates label updates now =
      serializeDatetimes
        (if label ∈ (["Album"] : List String) then
          setKey updates "updated_at" (Value.str (isoformat now))
        else updates) := by
  by_cases h : label ∈ (["Album"] : List String) <;> simp [augmentUpdates, h]

theorem update_node_finalUpdates (run : Driver) (label node_id : String)
    (updates : PyDict) (now : Nat) :
    (update_node run label node_id updates now).finalUpdates =
      if updates.isEmpty then updates else augmentUpdates label updates now := by
  unfold update_node
  by_cases h : updates.isEmpty <;> simp [h]

theorem isEmpty_false_of_ne_nil (updates : PyDict) (h : updates ≠ []) :
    updates.isEmpty = false := by
  cases updates with
  | nil => exact absurd rfl h
  | cons p rest => rfl

theorem mem_album_iff (label : String) :
    label ∈ (["Album"] : List String) ↔ label = "Album" := List.mem_singleton

/-! Claim theorems. -/

/-- C1: the claim says create stamps per the spec Entity Policy table —
in particular that a Genre node gets neither timestamp and that a label
outside the three known ones gets no auto-managed field at all.  The
code instead stamps id and created_at on every label: the property map
sent for a Genre create (the failing input of the repository test
test_create_genre) carries created_at, and so does an ad-hoc label. -/
theorem genre_and_adhoc_create_receive_created_at :
    lookupD (createNodeData "Genre" [("name", Value.str "Progressive Rock")] "test-genre-id" 7)
        "created_at" = some (Value.str (isoformat 7)) ∧
    lookupD (createNodeData "Genre" [("name", Value.str "Progressive Rock")] "test-genre-id" 7)
        "updated_at" = none ∧
    lookupD (createNodeData "Playlist" [] "test-playlist-id" 7) "id" =
        some (Value.str "test-playlist-id") ∧
    lookupD (createNodeData "Playlist" [] "test-playlist-id" 7) "created_at" =
        some (Value.str (isoformat 7)) := by
  refine ⟨rfl, rfl, rfl, rfl⟩

/-- C5: an empty update payload short-circuits to get_node — the whole
operation outcome is the one of get_node, the only issued query is the
read query of get_node (no write query is built or run), and the
payload is left untouched. -/
theorem update_empty_is_get (run : Driver) (label node_id : String) (now : Nat) :
    (update_node run label node_id [] now).op = get_node run label node_id ∧
    (update_node run label node_id [] now).op.issued =
      [(getQuery label, [("id", Param.str node_id)])] ∧
    (update_node run label node_id [] now).finalUpdates = [] := by
  refine ⟨rfl, rfl, rfl⟩

/-- C8: run_query on a DatabaseManager whose driver was never set (the
freshly constructed state, before connect) raises the RuntimeError at
once, for every query and parameters, without consulting any driver. -/
theorem run_query_before_connect_raises (q : String) (p : Params) :
    newDatabaseManager.run_query q p =
      .error (.runtimeError "Not connected to database. Call connect() first.") := rfl

/-- C9: initialize_schema runs its fixed statement list sequentially
through the per-statement try/except; whatever the query layer does on
each statement — including failing on all of them — every statement is
still attempted in order and the operation returns normally, never
propagating an error. -/
theorem initialize_schema_never_raises (run : Driver) :
    initialize_schema run = .ok constraintsAndIndexes := by
  have hbody : ∀ s, runSchemaStatement run s = .ok () := by
    intro s
    unfold runSchemaStatement
    cases run s [] <;> rfl
  have hloop : ∀ (l attempted : List String),
      initSchemaLoop run attempted l = .ok (attempted ++ l) := by
    intro l
    induction l with
    | nil => intro attempted; simp [initSchemaLoop]
    | cons s rest ih =>
      intro attempted
      simp [initSchemaLoop, hbody, Except.bind, ih]
  unfold initialize_schema
  rw [hloop]
  rfl

/-- C2 counterexample: the dict literal in create_node places the
caller data splat last, so a caller-supplied id overrides the freshly
generated one in the property map handed to the query layer — the
generated value does not take precedence. -/
theorem caller_id_overrides_generated :
    lookupD (createNodeData "Album" [("id", Value.str "caller-id")] "fresh-uuid-1" 0) "id" =
      some (Value.str "caller-id") ∧
    Value.str "caller-id" ≠ Value.str "fresh-uuid-1" := by
  refine ⟨rfl, by decide⟩

/-- C2 amended: the property map passed to the query layer carries the
generated id and created_at only when the caller did not supply those
keys; a caller-supplied id or created_at takes precedence (the data
splat is merged last), while the policy-stamped updated_at for Album is
assigned after the merge and therefore always wins. -/
theorem create_merge_precedence (label : String) (data : PyDict) (node_id : String)
    (now : Nat) (hnd : (dictKeys data).Nodup) :
    (lookupD data "id" = none →
      lookupD (createNodeData label data node_id now) "id" = some (Value.str node_id)) ∧
    (∀ v, lookupD data "id" = some v →
      lookupD (createNodeData label data node_id now) "id" = some (serializeValue v)) ∧
    (lookupD data "created_at" = none →
      lookupD (createNodeData label data node_id now) "created_at" =
        some (Value.str (isoformat now))) ∧
    (∀ v, lookupD data "created_at" = some v →
      lookupD (createNodeData label data node_id now) "created_at" =
        some (serializeValue v)) ∧
    (label = "Album" →
      lookupD (createNodeData label data node_id now) "updated_at" =
        some (Value.str (isoformat now))) := by
  have hkey : ∀ k, k = "id" ∨ k = "created_at" →
      lookupD (createNodeData label data node_id now) k =
        (lookupD (mergeDict [("id", Value.str node_id), ("created_at", Value.dt now)] data) k).map
          serializeValue := by
    intro k hk
    have hkne : k ≠ "updated_at" := by
      rcases hk with hk | hk <;> rw [hk] <;> decide
    rw [createNodeData_eq, lookupD_serializeDatetimes]
    by_cases hA : label ∈ (["Album"] : List String)
    · rw [if_pos hA, lookupD_setKey_ne _ _ _ _ hkne]
    · rw [if_neg hA]
  refine ⟨?_, ?_, ?_, ?_, ?_⟩
  · intro h
    rw [hkey "id" (Or.inl rfl), lookupD_mergeDict_of_none _ _ _ h]
    rfl
  · intro v h
    rw [hkey "id" (Or.inl rfl), lookupD_mergeDict_of_some _ _ _ _ hnd h]
    rfl
  · intro h
    rw [hkey "created_at" (Or.inr rfl), lookupD_mergeDict_of_none _ _ _ h]
    rfl
  · intro v h
    rw [hkey "created_at" (Or.inr rfl), lookupD_mergeDict_of_some _ _ _ _ hnd h]
    rfl
  · intro hA
    rw [createNodeData_eq, lookupD_serializeDatetimes,
      if_pos ((mem_album_iff label).mpr hA), lookupD_setKey_self]
    rfl

/-- C2 witness: concrete evaluation of the amended precedence facts on
an Album create without caller-supplied auto-managed keys. -/
theorem create_merge_precedence_witness :
    lookupD (createNodeData "Album" [("title", Value.str "T")] "u-9" 4) "id" =
      some (Value.str "u-9") ∧
    lookupD (createNodeData "Album" [("title", Value.str "T")] "u-9" 4) "created_at" =
      some (Value.str (isoformat 4)) ∧
    lookupD (createNodeData "Album" [("title", Value.str "T")] "u-9" 4) "updated_at" =
      some (Value.str (isoformat 4)) :=
  ⟨(create_merge_precedence "Album" [("title", Value.str "T")] "u-9" 4 (by decide)).1 rfl,
   (create_merge_precedence "Album" [("title", Value.str "T")] "u-9" 4 (by decide)).2.2.1 rfl,
   (create_merge_precedence "Album" [("title", Value.str "T")] "u-9" 4 (by decide)).2.2.2.2 rfl⟩

/-- C3 counterexample: no validation or sanitization guards the label
token — an arbitrary caller string, here one carrying extra query
syntax, is interpolated verbatim into the query text built for create. -/
theorem injection_label_unsanitized :
    createQuery "Album) DETACH DELETE (m) //" =
      "\n    CREATE (n:Album) DETACH DELETE (m) // $props)\n    RETURN n\n    " := rfl

/-- C3 amended: every operation interpolates the label token — and, for
update, the field-name tokens of the SET clause — directly into the
query text with no allow-list check, for every string whatsoever, while
the values — the property map, the id, the update set, limit and
offset — travel only in the bound parameter list and never in the
query text. -/
theorem queries_interpolate_tokens_and_bind_values (run : Driver) (label node_id : String)
    (data updates : PyDict) (now : Nat) (limit offset : Int) :
    createQuery label = "\n    CREATE (n:" ++ label ++ " $props)\n    RETURN n\n    " ∧
    getQuery label = "\n    MATCH (n:" ++ label ++ " \x7bid: $id\x7d)\n    RETURN n\n    " ∧
    deleteQuery label =
      "\n    MATCH (n:" ++ label ++
        " \x7bid: $id\x7d)\n    DELETE n\n    RETURN count(n) as deleted_count\n    " ∧
    updateQuery label (setClause (augmentUpdates label updates now)) =
      "\n    MATCH (n:" ++ label ++ " \x7bid: $id\x7d)\n    SET " ++
        setClause (augmentUpdates label updates now) ++ "\n    RETURN n\n    " ∧
    setParts (augmentUpdates label updates now) =
      (dictKeys (augmentUpdates label updates now)).map
        (fun k => "n." ++ k ++ " = $updates." ++ k) ∧
    (create_node run label data node_id now).issued =
      [(createQuery label, [("props", Param.map (createNodeData label data node_id now))])] ∧
    (get_node run label node_id).issued =
      [(getQuery label, [("id", Param.str node_id)])] ∧
    (delete_node run label node_id).issued =
      [(deleteQuery label, [("id", Param.str node_id)])] ∧
    (list_nodes run label limit offset).issued =
      [(listQuery label, [("limit", Param.int limit), ("offset", Param.int offset)])] ∧
    (count_nodes run label).issued = [(countQuery label, [])] ∧
    (updates ≠ [] →
      (update_node run label node_id updates now).op.issued =
        [(updateQuery label (setClause (augmentUpdates label updates now)),
          [("id", Param.str node_id),
           ("updates", Param.map (augmentUpdates label updates now))])]) := by
  refine ⟨rfl, rfl, rfl, rfl, ?_, rfl, rfl, rfl, rfl, rfl, ?_⟩
  · simp [setParts, dictKeys, List.map_map, Function.comp]
  · intro hne
    have he := isEmpty_false_of_ne_nil updates hne
    simp [update_node, he]

/-- C3 witness: the update clause of the amended statement evaluated on
a concrete non-empty payload carrying an injection-shaped field name,
which flows verbatim into the SET clause of the issued query text. -/
theorem queries_interpolate_tokens_and_bind_values_witness :
    (update_node (fun _ _ => Except.ok []) "Album" "i-2"
        [("x = 1 DETACH DELETE (n) //", Value.str "N")] 1).op.issued =
      [(updateQuery "Album"
          (setClause (augmentUpdates "Album" [("x = 1 DETACH DELETE (n) //", Value.str "N")] 1)),
        [("id", Param.str "i-2"),
         ("updates",
          Param.map (augmentUpdates "Album" [("x = 1 DETACH DELETE (n) //", Value.str "N")] 1))])] :=
  (queries_interpolate_tokens_and_bind_values (fun _ _ => Except.ok []) "Album" "i-2"
      [] [("x = 1 DETACH DELETE (n) //", Value.str "N")] 1 7 0).2.2.2.2.2.2.2.2.2.2
    (by decide)

/-- C4: when the query layer reports no matching node — an empty result
for the read and write queries, and a zero count row for the delete
query — get_node returns None, update_node with a non-empty payload
returns None, and delete_node returns False; every outcome comes back
through the normal return channel, none as a raised error. -/
theorem not_found_is_not_error (run : Driver) (label node_id : String) (updates : PyDict)
    (now : Nat)
    (hget : run (getQuery label) [("id", Param.str node_id)] = .ok [])
    (hupd : run (updateQuery label (setClause (augmentUpdates label updates now)))
        [("id", Param.str node_id), ("updates", Param.map (augmentUpdates label updates now))] =
        .ok [])
    (hdel : run (deleteQuery label) [("id", Param.str node_id)] =
        .ok [[("deleted_count", Cell.int 0)]])
    (hne : updates ≠ []) :
    (get_node run label node_id).result = .ok none ∧
    (update_node run label node_id updates now).op.result = .ok none ∧
    (delete_node run label node_id).result = .ok (BoolLike.bool false) := by
  refine ⟨?_, ?_, ?_⟩
  · simp [get_node, hget]
  · have he := isEmpty_false_of_ne_nil updates hne
    simp [update_node, he, hupd]
  · simp [delete_node, hdel, recordLookup]

/-- C4 witness: a concrete query layer with no matching node, evaluated
for label Album and an absent id. -/
theorem not_found_is_not_error_witness :
    (get_node
        (fun q _ => if q = deleteQuery "Album"
          then Except.ok [[("deleted_count", Cell.int 0)]] else Except.ok [])
        "Album" "missing-id").result = Except.ok none ∧
    (update_node
        (fun q _ => if q = deleteQuery "Album"
          then Except.ok [[("deleted_count", Cell.int 0)]] else Except.ok [])
        "Album" "missing-id" [("x", Value.int 1)] 0).op.result = Except.ok none ∧
    (delete_node
        (fun q _ => if q = deleteQuery "Album"
          then Except.ok [[("deleted_count", Cell.int 0)]] else Except.ok [])
        "Album" "missing-id").result = Except.ok (BoolLike.bool false) :=
  not_found_is_not_error
    (fun q _ => if q = deleteQuery "Album"
      then Except.ok [[("deleted_count", Cell.int 0)]] else Except.ok [])
    "Album" "missing-id" [("x", Value.int 1)] 0 rfl rfl rfl (by decide)

/-- C6: for a non-empty payload, update_node first injects the current
instant as updated_at exactly when the label is Album, and the dynamic
SET clause is built from exactly the keys of the possibly augmented
update set — one fragment per key, the key list free of duplicates —
and that clause together with the bound values is what reaches the
query layer. -/
theorem update_set_clause_exact (run : Driver) (label node_id : String) (updates : PyDict)
    (now : Nat) (hne : updates ≠ []) (hnd : (dictKeys updates).Nodup) :
    (label = "Album" →
      lookupD (augmentUpdates label updates now) "updated_at" =
        some (Value.str (isoformat now))) ∧
    dictKeys (augmentUpdates label updates now) =
      (if label = "Album" ∧ "updated_at" ∉ dictKeys updates
        then dictKeys updates ++ ["updated_at"] else dictKeys updates) ∧
    (dictKeys (augmentUpdates label updates now)).Nodup ∧
    setParts (augmentUpdates label updates now) =
      (dictKeys (augmentUpdates label updates now)).map
        (fun k => "n." ++ k ++ " = $updates." ++ k) ∧
    (update_node run label node_id updates now).op.issued =
      [(updateQuery label (setClause (augmentUpdates label updates now)),
        [("id", Param.str node_id), ("updates", Param.map (augmentUpdates label updates now))])] := by
  refine ⟨?_, ?_, ?_, ?_, ?_⟩
  · intro hA
    rw [augmentUpdates_eq, lookupD_serializeDatetimes,
      if_pos ((mem_album_iff label).mpr hA), lookupD_setKey_self]
    rfl
  · rw [augmentUpdates_eq, dictKeys_serializeDatetimes]
    by_cases hA : label ∈ (["Album"] : List String)
    · rw [if_pos hA, dictKeys_setKey]
      by_cases hm : "updated_at" ∈ dictKeys updates
      · rw [if_pos hm, if_neg (fun hc => hc.2 hm)]
      · rw [if_neg hm, if_pos ⟨(mem_album_iff label).mp hA, hm⟩]
    · rw [if_neg hA, if_neg (fun hc => hA ((mem_album_iff label).mpr hc.1))]
  · rw [augmentUpdates_eq, dictKeys_serializeDatetimes]
    by_cases hA : label ∈ (["Album"] : List String)
    · rw [if_pos hA]
      exact nodup_dictKeys_setKey updates "updated_at" (Value.str (isoformat now)) hnd
    · rw [if_neg hA]
      exact hnd
  · simp [setParts, dictKeys, List.map_map, Function.comp]
  · have he := isEmpty_false_of_ne_nil updates hne
    simp [update_node, he]

/-- C6 witness: the augmented key list, its freedom from duplicates,
and the issued write for a concrete Album update of one field. -/
theorem update_set_clause_exact_witness :
    dictKeys (augmentUpdates "Album" [("title", Value.str "T")] 2) =
      (if ("Album" : String) = "Album" ∧ "updated_at" ∉ dictKeys [("title", Value.str "T")]
        then dictKeys [("title", Value.str "T")] ++ ["updated_at"]
        else dictKeys [("title", Value.str "T")]) ∧
    (dictKeys (augmentUpdates "Album" [("title", Value.str "T")] 2)).Nodup ∧
    (update_node (fun _ _ => Except.ok []) "Album" "i-1" [("title", Value.str "T")] 2).op.issued =
      [(updateQuery "Album" (setClause (augmentUpdates "Album" [("title", Value.str "T")] 2)),
        [("id", Param.str "i-1"),
         ("updates", Param.map (augmentUpdates "Album" [("title", Value.str "T")] 2))])] :=
  ⟨(update_set_clause_exact (fun _ _ => Except.ok []) "Album" "i-1"
      [("title", Value.str "T")] 2 (by decide) (by decide)).2.1,
   (update_set_clause_exact (fun _ _ => Except.ok []) "Album" "i-1"
      [("title", Value.str "T")] 2 (by decide) (by decide)).2.2.1,
   (update_set_clause_exact (fun _ _ => Except.ok []) "Album" "i-1"
      [("title", Value.str "T")] 2 (by decide) (by decide)).2.2.2.2⟩

/-- C7: when the query layer answers the creation query with zero rows,
create_node raises the RuntimeError (no node, no absence value, a single
issued query so no retry); when it answers with at least one row whose
first record carries the node, create_node returns that node's
properties. -/
theorem create_failure_raises (run : Driver) (label : String) (data : PyDict)
    (node_id : String) (now : Nat) :
    (run (createQuery label) [("props", Param.map (createNodeData label data node_id now))] =
        .ok [] →
      (create_node run label data node_id now).result =
        .error (.runtimeError ("Failed to create " ++ label ++ " node"))) ∧
    (∀ r rest props,
      run (createQuery label) [("props", Param.map (createNodeData label data node_id now))] =
        .ok (r :: rest) →
      recordLookup r "n" = some (Cell.node props) →
      (create_node run label data node_id now).result = .ok props) ∧
    (create_node run label data node_id now).issued.length = 1 := by
  refine ⟨?_, ?_, rfl⟩
  · intro h
    simp [create_node, h]
  · intro r rest props hrun hr
    simp [create_node, hrun, firstNode, hr]

/-- C7 witness: the zero-row case raises and the one-row case returns
the stored node, on concrete query layers. -/
theorem create_failure_raises_witness :
    (create_node (fun _ _ => Except.ok []) "Album" [] "u-1" 0).result =
      Except.error (PyError.runtimeError "Failed to create Album node") ∧
    (create_node (fun _ _ => Except.ok [[("n", Cell.node [("id", Value.str "u-1")])]])
        "Album" [] "u-1" 0).result = Except.ok [("id", Value.str "u-1")] :=
  ⟨(create_failure_raises (fun _ _ => Except.ok []) "Album" [] "u-1" 0).1 rfl,
   (create_failure_raises (fun _ _ => Except.ok [[("n", Cell.node [("id", Value.str "u-1")])]])
      "Album" [] "u-1" 0).2.1
     [("n", Cell.node [("id", Value.str "u-1")])] [] [("id", Value.str "u-1")] rfl rfl⟩

/-- C10 counterexample: an update of a non-Album node with a non-empty,
datetime-free payload leaves the caller-supplied mapping exactly as it
was passed in — the call does not always change the caller's mapping. -/
theorem update_artist_leaves_mapping_unchanged :
    (update_node (fun _ _ => Except.ok []) "Artist" "some-id" [("x", Value.int 1)] 3).finalUpdates =
      [("x", Value.int 1)] := rfl

/-- C10 amended: update_node mutates the caller-supplied mapping in
place only for a non-empty payload: for Album it inserts updated_at
bound to the serialized current instant, and for every label it
replaces each datetime value with its serialized text; an empty
payload, or a non-Album payload holding no datetime value, leaves the
mapping unchanged. -/
theorem update_mutates_only_when_needed (run : Driver) (label node_id : String)
    (updates : PyDict) (now : Nat) :
    (update_node run label node_id [] now).finalUpdates = [] ∧
    (updates ≠ [] → label = "Album" →
      lookupD (update_node run label node_id updates now).finalUpdates "updated_at" =
        some (Value.str (isoformat now))) ∧
    (updates ≠ [] → ∀ k t, k ≠ "updated_at" → lookupD updates k = some (Value.dt t) →
      lookupD (update_node run label node_id updates now).finalUpdates k =
        some (Value.str (isoformat t))) ∧
    (updates ≠ [] → label ≠ "Album" → noDatetimes updates = true →
      (update_node run label node_id updates now).finalUpdates = updates) := by
  refine ⟨rfl, ?_, ?_, ?_⟩
  · intro hne hA
    rw [update_node_finalUpdates, isEmpty_false_of_ne_nil updates hne]
    simp only [Bool.false_eq_true, if_false]
    rw [augmentUpdates_eq, lookupD_serializeDatetimes,
      if_pos ((mem_album_iff label).mpr hA), lookupD_setKey_self]
    rfl
  · intro hne k t hk h
    rw [update_node_finalUpdates, isEmpty_false_of_ne_nil updates hne]
    simp only [Bool.false_eq_true, if_false]
    rw [augmentUpdates_eq, lookupD_serializeDatetimes]
    by_cases hA : label ∈ (["Album"] : List String)
    · rw [if_pos hA, lookupD_setKey_ne _ _ _ _ hk, h]
      rfl
    · rw [if_neg hA, h]
      rfl
  · intro hne hA hnodt
    rw [update_node_finalUpdates, isEmpty_false_of_ne_nil updates hne]
    simp only [Bool.false_eq_true, if_false]
    rw [augmentUpdates_eq, if_neg (fun hc => hA ((mem_album_iff label).mp hc))]
    exact serializeDatetimes_of_noDatetimes updates hnodt

/-- C10 witness: the Album mutation (updated_at inserted, a datetime
value serialized) and the unchanged non-Album mapping, concretely. -/
theorem update_mutates_only_when_needed_witness :
    lookupD (update_node (fun _ _ => Except.ok []) "Album" "n1"
        [("x", Value.dt 3)] 5).finalUpdates "updated_at" = some (Value.str (isoformat 5)) ∧
    lookupD (update_node (fun _ _ => Except.ok []) "Album" "n1"
        [("x", Value.dt 3)] 5).finalUpdates "x" = some (Value.str (isoformat 3)) ∧
    (update_node (fun _ _ => Except.ok []) "Artist" "n1"
        [("y", Value.int 2)] 5).finalUpdates = [("y", Value.int 2)] :=
  ⟨(update_mutates_only_when_needed (fun _ _ => Except.ok []) "Album" "n1"
      [("x", Value.dt 3)] 5).2.1 (by decide) rfl,
   (update_mutates_only_when_needed (fun _ _ => Except.ok []) "Album" "n1"
      [("x", Value.dt 3)] 5).2.2.1 (by decide) "x" 3 (by decide) rfl,
   (update_mutates_only_when_needed (fun _ _ => Except.ok []) "Artist" "n1"
      [("y", Value.int 2)] 5).2.2.2 (by decide) (by decide) rfl⟩

end MusicalBrain
